import Mathlib

/-!
Verification of the resilient aggregation and normalization pipeline of the
government-data integration module (`backend/app/api/government_data.py`).

The Python code is shallowly embedded as executable Lean definitions:

* loosely-typed JSON values become `Value`;
* Python `float` values become `PyFloat` (exact rationals plus the special
  values `inf`, `-inf`, `nan`; decimal-to-double rounding and finite-arithmetic
  overflow of IEEE doubles are not modelled, so every finite value is exact);
* Python exceptions that escape a handler become `Except` errors;
* the retrying HTTP client is modelled as a function of the per-attempt
  outcomes; network payloads and the clock are passed in as parameters.
-/


attribute [local semireducible] Rat.mul Rat.add Rat.sub Rat.inv Rat.ofScientific

/-- Decidable equality of `Except` results, for evaluating the model on
concrete inputs. -/
instance {ε α : Type} [DecidableEq ε] [DecidableEq α] : DecidableEq (Except ε α) := fun x y =>
  match x, y with
  | Except.ok a, Except.ok b =>
    if h : a = b then Decidable.isTrue (congrArg Except.ok h)
    else Decidable.isFalse (fun hc => h (Except.ok.inj hc))
  | Except.ok _, Except.error _ => Decidable.isFalse (fun hc => Except.noConfusion hc)
  | Except.error _, Except.ok _ => Decidable.isFalse (fun hc => Except.noConfusion hc)
  | Except.error a, Except.error b =>
    if h : a = b then Decidable.isTrue (congrArg Except.error h)
    else Decidable.isFalse (fun hc => h (Except.error.inj hc))

/-- A loosely typed upstream JSON value as handled by the endpoint helpers:
Python `None`, a string, or an integer.  (Numeric fields of the upstream
datasets arrive as strings or ints; a missing key yields `None` via
`record.get`.) -/
inductive Value where
  | none
  | str (s : String)
  | int (n : Int)
deriving DecidableEq

/-- Python `str(value)` on the `Value` domain: `str(None) = "None"`,
strings are unchanged, ints print in decimal (matching `toString : Int → String`). -/
def pyStr : Value → String
  | Value.none => "None"
  | Value.str s => s
  | Value.int n => toString n

/-- A Python float: a finite value (modelled as an exact rational),
positive or negative infinity, or NaN. -/
inductive PyFloat where
  | finite (q : ℚ)
  | inf
  | negInf
  | nan
deriving DecidableEq

/-- ASCII whitespace stripped by Python `float(str)`. -/
def isWs (c : Char) : Bool :=
  c == ' ' || c == '\t' || c == '\n' || c == '\r' || c == '\x0b' || c == '\x0c'

/-- Strip leading and trailing whitespace from a character list. -/
def stripWs (cs : List Char) : List Char :=
  ((cs.dropWhile isWs).reverse.dropWhile isWs).reverse

/-- Numeric value of a decimal digit character. -/
def digitVal (c : Char) : Nat := c.toNat - 48

/-- Interpret a list of decimal digit characters as a natural number. -/
def charsToNat (cs : List Char) : Nat :=
  cs.foldl (fun a c => a * 10 + digitVal c) 0

/-- All characters are decimal digits. -/
def allDigits (cs : List Char) : Bool := cs.all (fun c => c.isDigit)

/-- Split a character list at the first character satisfying `p`:
returns the part before it and, if found, the part after it. -/
def splitAtChar (p : Char → Bool) : List Char → (List Char × Option (List Char))
  | [] => ([], Option.none)
  | c :: rest =>
    if p c then ([], some rest)
    else
      let (a, b) := splitAtChar p rest
      (c :: a, b)

/-- `10^e` for an integer exponent, on ℚ. -/
def pow10 (e : ℤ) : ℚ :=
  if 0 ≤ e then ((10 : ℚ)) ^ e.toNat else 1 / ((10 : ℚ)) ^ ((-e).toNat)

/-- The mantissa of a Python float literal: digits with an optional single
decimal point (`"1"`, `"1.5"`, `"1."`, `".5"`); at least one digit overall. -/
def parseMantissa (cs : List Char) : Option ℚ :=
  match splitAtChar (fun c => c == '.') cs with
  | (ip, Option.none) =>
    if !ip.isEmpty && allDigits ip then some ((charsToNat ip : ℤ) : ℚ) else Option.none
  | (ip, some fp) =>
    if (!ip.isEmpty || !fp.isEmpty) && allDigits ip && allDigits fp then
      some (((charsToNat ip : ℤ) : ℚ) + ((charsToNat fp : ℤ) : ℚ) / ((10 : ℚ) ^ fp.length))
    else Option.none

/-- The exponent part of a Python float literal: optional sign and a
nonempty run of digits. -/
def parseExpPart (cs : List Char) : Option ℤ :=
  match cs with
  | '+' :: t => if !t.isEmpty && allDigits t then some ((charsToNat t : ℤ)) else Option.none
  | '-' :: t => if !t.isEmpty && allDigits t then some (-(charsToNat t : ℤ)) else Option.none
  | t => if !t.isEmpty && allDigits t then some ((charsToNat t : ℤ)) else Option.none

/-- Model of CPython `float(s)` for a string argument: strips whitespace,
accepts an optional sign, the case-insensitive specials `inf`/`infinity`/`nan`,
or a decimal literal `digits[.digits][(e|E)[sign]digits]`; every other string
raises `ValueError`, modelled by `Option.none`.  (Digit-group underscores and
the decimal-to-double rounding/overflow of huge literals are not modelled;
no input used in this development exercises them.) -/
def parseFloat (s : String) : Option PyFloat :=
  let cs := stripWs s.toList
  let sgnRest : Bool × List Char :=
    match cs with
    | '+' :: t => (false, t)
    | '-' :: t => (true, t)
    | t => (false, t)
  let sgnNeg := sgnRest.1
  let rest := sgnRest.2
  let low := rest.map Char.toLower
  if low = "inf".toList || low = "infinity".toList then
    some (if sgnNeg then PyFloat.negInf else PyFloat.inf)
  else if low = "nan".toList then some PyFloat.nan
  else
    match splitAtChar (fun c => c == 'e' || c == 'E') rest with
    | (m, Option.none) =>
      match parseMantissa m with
      | some q => some (PyFloat.finite (if sgnNeg then -q else q))
      | Option.none => Option.none
    | (m, some ex) =>
      match parseMantissa m, parseExpPart ex with
      | some q, some e =>
        let v := q * pow10 e
        some (PyFloat.finite (if sgnNeg then -v else v))
      | _, _ => Option.none

/-- Python `int(f)` truncation of a finite float toward zero. -/
def pyTrunc (q : ℚ) : ℤ := if 0 ≤ q then ⌊q⌋ else ⌈q⌉

/-- An exception escaping one of the "safe" coercion helpers.  The only such
exception is the `OverflowError` of `int(float("inf"))`, which the helpers'
`except (ValueError, TypeError)` clause does not catch. -/
inductive PyError where
  | overflowError
deriving DecidableEq

/-- Python `str.upper()` (over the ASCII fragment appearing in this module),
implemented on the character list so that it evaluates by kernel reduction. -/
def strUpper (s : String) : String := String.mk (s.toList.map Char.toUpper)

/-- Python `str.lower()` (over the ASCII fragment appearing in this module). -/
def strLower (s : String) : String := String.mk (s.toList.map Char.toLower)

/-- The sentinel test of the coercion helpers:
`value is None or str(value).upper() in sentinels`. -/
def sentinelHit (v : Value) (sentinels : List String) : Bool :=
  match v with
  | Value.none => true
  | _ => sentinels.contains (strUpper (pyStr v))

/-- The body shared by the `safe_int` helpers (they differ only in the
sentinel list): return the default on a sentinel; otherwise
`int(float(str(value)))`, returning the default when `float` raises
`ValueError` or when `int(nan)` raises `ValueError`; `int(±inf)` raises
`OverflowError`, which the `except (ValueError, TypeError)` clause does NOT
catch, so it escapes. -/
def safeIntWith (sentinels : List String) (v : Value) (d : Int) : Except PyError Int :=
  if sentinelHit v sentinels then Except.ok d
  else
    match parseFloat (pyStr v) with
    | Option.none => Except.ok d
    | some (PyFloat.finite q) => Except.ok (pyTrunc q)
    | some PyFloat.nan => Except.ok d
    | some PyFloat.inf => Except.error PyError.overflowError
    | some PyFloat.negInf => Except.error PyError.overflowError

/-- `safe_int` as defined inside `get_all_india_summary` (lines 417-423) and
`get_states_summary` (lines 563-569): sentinels `['NA', 'N.A.', '', 'NULL']`. -/
def safe_int (v : Value) (d : Int) : Except PyError Int :=
  safeIntWith ["NA", "N.A.", "", "NULL"] v d

/-- `safe_int` as defined inside `get_comprehensive_claims` (lines 721-727):
sentinels `['NA', 'N.A.', '']` (no `'NULL'`). -/
def safe_int_cc (v : Value) (d : Int) : Except PyError Int :=
  safeIntWith ["NA", "N.A.", ""] v d

/-- `safe_float` as defined inside `get_all_india_summary` (lines 425-431):
default on a sentinel or on a `float` parse failure, otherwise the parsed
float.  Total: `float(str(value))` raises only `ValueError` here, which is
caught. -/
def safe_float (v : Value) (d : PyFloat) : PyFloat :=
  if sentinelHit v ["NA", "N.A.", "", "NULL"] then d
  else
    match parseFloat (pyStr v) with
    | some f => f
    | Option.none => d

/-- Bare Python `float(value)` on the `Value` domain, as used when building
the approval lookup in `get_comprehensive_claims` (line 735): `None` raises
`TypeError`, an unparsable string raises `ValueError` (both `Option.none`). -/
def pyFloatOfValue : Value → Option PyFloat
  | Value.none => Option.none
  | Value.str s => parseFloat s
  | Value.int n => some (PyFloat.finite (n : ℚ))

/-- Round-half-to-even on a rational, as used by Python's builtin `round`. -/
def roundHalfEven (q : ℚ) : ℤ :=
  let f := ⌊q⌋
  let r := q - (f : ℚ)
  if r < 1 / 2 then f
  else if 1 / 2 < r then f + 1
  else if f % 2 = 0 then f else f + 1

/-- Python `round(x, 2)` on a finite float, modelled exactly on ℚ with
round-half-to-even. -/
def pyRound2 (q : ℚ) : ℚ := ((roundHalfEven (q * 100) : ℤ) : ℚ) / 100

/-- Python `round(x, 2)` on a `PyFloat`: `round(inf, 2) = inf`,
`round(nan, 2) = nan`. -/
def pyRoundF2 : PyFloat → PyFloat
  | PyFloat.finite q => PyFloat.finite (pyRound2 q)
  | PyFloat.inf => PyFloat.inf
  | PyFloat.negInf => PyFloat.negInf
  | PyFloat.nan => PyFloat.nan

/-- Python float addition on the `PyFloat` model (NaN propagates,
`inf + (-inf) = nan`; finite overflow to `inf` is not modelled). -/
def PyFloat.add : PyFloat → PyFloat → PyFloat
  | PyFloat.nan, _ => PyFloat.nan
  | _, PyFloat.nan => PyFloat.nan
  | PyFloat.inf, PyFloat.negInf => PyFloat.nan
  | PyFloat.negInf, PyFloat.inf => PyFloat.nan
  | PyFloat.inf, _ => PyFloat.inf
  | _, PyFloat.inf => PyFloat.inf
  | PyFloat.negInf, _ => PyFloat.negInf
  | _, PyFloat.negInf => PyFloat.negInf
  | PyFloat.finite a, PyFloat.finite b => PyFloat.finite (a + b)

/-- Python division of a float by a positive integer (the `len(...)` of a
nonempty list at the single call site). -/
def PyFloat.divNat : PyFloat → Nat → PyFloat
  | PyFloat.nan, _ => PyFloat.nan
  | PyFloat.inf, _ => PyFloat.inf
  | PyFloat.negInf, _ => PyFloat.negInf
  | PyFloat.finite a, n => PyFloat.finite (a / (n : ℚ))

/-- Python `sum(...)` over floats: left fold of float addition starting
from the int `0`. -/
def sumPyF (l : List PyFloat) : PyFloat := l.foldl PyFloat.add (PyFloat.finite 0)

/-- Lexicographic strict comparison of character lists: Python `<` on
strings (over the ASCII fragment appearing in this module). -/
def charsLt : List Char → List Char → Bool
  | [], [] => false
  | [], _ :: _ => true
  | _ :: _, [] => false
  | a :: as, b :: bs => a < b || (a == b && charsLt as bs)

/-- Lexicographic `≤` on character lists: Python `<=` on strings. -/
def charsLe : List Char → List Char → Bool
  | [], _ => true
  | _ :: _, [] => false
  | a :: as, b :: bs => a < b || (a == b && charsLe as bs)

/-- Python `a < b` for strings. -/
def strLtB (a b : String) : Bool := charsLt a.toList b.toList

/-- Python `a <= b` for strings, used as the stable-sort key relation. -/
def strLeB (a b : String) : Bool := charsLe a.toList b.toList

/-- `needle` occurs as a prefix of `hay`. -/
def charsStartsWith : List Char → List Char → Bool
  | [], _ => true
  | _ :: _, [] => false
  | a :: as, b :: bs => a == b && charsStartsWith as bs

/-- `needle` occurs as a contiguous run inside `hay`. -/
def charsContains (hay needle : List Char) : Bool :=
  match hay with
  | [] => needle.isEmpty
  | _ :: t => charsStartsWith needle hay || charsContains t needle

/-- Python `needle in hay` for strings (substring containment). -/
def strContains (hay needle : String) : Bool := charsContains hay.toList needle.toList

/-- Python truthiness of an optional string parameter: `None` and the empty
string are falsy. -/
def optTruthy : Option String → Bool
  | Option.none => false
  | some s => !(s == "")

/-- The observable outcome of one HTTP attempt inside
`GovernmentAPIClient.make_request`: a decoded 200 response, a non-200
status code, or an `httpx.TimeoutException`. -/
inductive FetchOutcome (α : Type) where
  | ok (a : α)
  | status (code : Nat)
  | timeout
deriving DecidableEq

/-- `GovernmentAPIClient.make_request` (lines 56-114), as a function of the
sequence of per-attempt outcomes (consumed head-first; the sequence always
holds an outcome for every attempt actually made, so the `[]` case is
unreachable).  Returns the backoff delays slept (in seconds,
`retry_delay * 2**retries` with `retry_delay = 1.0`, `max_retries = 2`) and
either the decoded dataset or the status code of the `HTTPException` that
escapes.  Exception flow is modelled faithfully: an `HTTPException` raised
inside the `try` block — the non-200 `raise` at line 94, or anything thrown
by the recursive call at line 92, which sits inside the `try` — is caught
by `except Exception` (line 111) and re-raised as status 500; the timeout
handler's recursive call (line 107) sits inside the `except` clause, so
errors from it propagate unchanged, and an exhausted timeout raises 504
(line 109). -/
def makeRequest {α : Type} : List (FetchOutcome α) → Nat → List Nat × Except Nat α
  | [], _ => ([], Except.error 500)
  | x :: rest, retries =>
    match x with
    | FetchOutcome.ok a => ([], Except.ok a)
    | FetchOutcome.status c =>
      if retries < 2 ∧ c ∈ [500, 502, 503, 504, 429] then
        let d := 2 ^ retries
        let rec1 := makeRequest rest (retries + 1)
        (d :: rec1.1,
          match rec1.2 with
          | Except.ok a => Except.ok a
          | Except.error _ => Except.error 500)
      else ([], Except.error 500)
    | FetchOutcome.timeout =>
      if retries < 2 then
        let d := 2 ^ retries
        let rec1 := makeRequest rest (retries + 1)
        (d :: rec1.1, rec1.2)
      else ([], Except.error 504)

/-- One record of the primary FRA-claims dataset
(`/resource/54940646-...`), restricted to the keys the module reads.
`state`/`district` model `record.get("state", "")` / `record.get("district", "")`
(a missing key is the empty string); each numeric field holds the raw JSON
value, with a missing key modelled as `Value.none` (the sites that use
`record.get(key, 0)` coincide, since `safe_int` maps both `None` and `0`
to the same result at default `0`).  `idValue` models `record.get("_id", ...)`. -/
structure ClaimRaw where
  idValue : Option Value
  state : String
  district : String
  claimsTotal : Value
  titlesTotal : Value
  claimsInd : Value
  claimsCom : Value
  titlesInd : Value
  titlesCom : Value
  area : Value
deriving DecidableEq

/-- One record of the approval-percentage dataset (`/resource/f55d3181-...`):
`name_of_state` models `record.get("name_of_state", "")`, `pct` the raw value
of `percentage_of_claims_approved_over_number_of_claims_received__as_on_31_10_2018_`
(a missing key is modelled as `Value.int 0`, matching `record.get(key, 0)`). -/
structure ApprovalRaw where
  name_of_state : String
  pct : Value
deriving DecidableEq

/-- One dict-update step of the approval-lookup build in
`get_comprehensive_claims` (lines 730-738): records with an empty state name
are skipped; otherwise `approval_lookup[state_name] = float(pct)`, with `0`
on `ValueError`/`TypeError`.  A later record with the same key overwrites. -/
def approvalInsert (m : String → Option PyFloat) (r : ApprovalRaw) : String → Option PyFloat :=
  if r.name_of_state == "" then m
  else fun k =>
    if k == r.name_of_state then some ((pyFloatOfValue r.pct).getD (PyFloat.finite 0)) else m k

/-- The `approval_lookup` dict of `get_comprehensive_claims`, as the partial
map it denotes. -/
def approvalLookupFun (recs : List ApprovalRaw) : String → Option PyFloat :=
  recs.foldl approvalInsert (fun _ => Option.none)

/-- Python `dict.get(k, d)`. -/
def pyDictGetD (m : String → Option PyFloat) (k : String) (d : PyFloat) : PyFloat :=
  (m k).getD d

/-- The approval-percentage scan of `get_all_india_summary` (lines 461-466):
`approval_pct = 0`, then a linear scan that takes `safe_float` of the FIRST
record whose `name_of_state` equals the state and breaks. -/
def allIndiaFindApproval (apprs : List ApprovalRaw) (st : String) : PyFloat :=
  match apprs with
  | [] => PyFloat.finite 0
  | r :: rest =>
    if r.name_of_state == st then safe_float r.pct (PyFloat.finite 0)
    else allIndiaFindApproval rest st

/-- One insertion step of the stable sort: place `a` before the first
element `b` with `le a b`; among key-equal elements the earlier (inserted)
one stays first, matching the stability guarantee of Python `list.sort`. -/
def pyInsert {α : Type} (le : α → α → Bool) (a : α) : List α → List α
  | [] => [a]
  | b :: bs => if le a b then a :: b :: bs else b :: pyInsert le a bs

/-- Python's stable `list.sort(key=..., reverse=...)`, with the (total)
key order passed as a boolean `le`: modelled as stable insertion sort,
which agrees with any stable sort of a total preorder. -/
def pySort {α : Type} (le : α → α → Bool) (l : List α) : List α :=
  l.foldr (pyInsert le) []

/-- The six running totals of `get_all_india_summary` (lines 434-439). -/
structure AllTotals where
  claims : Int
  titles : Int
  indClaims : Int
  comClaims : Int
  indTitles : Int
  comTitles : Int
deriving DecidableEq

/-- One entry of `states_data` in `get_all_india_summary` (lines 468-474). -/
structure AllIndiaStateEntry where
  state : String
  claims_received : Int
  titles_distributed : Int
  processing_efficiency : ℚ
  approval_percentage : PyFloat
deriving DecidableEq

/-- The six `safe_int` coercions of one record in `get_all_india_summary`
(lines 447-452), in source order; the first escaping `OverflowError` aborts. -/
def allIndiaNums (r : ClaimRaw) : Except PyError (Int × Int × Int × Int × Int × Int) := do
  let claims ← safe_int r.claimsTotal 0
  let titles ← safe_int r.titlesTotal 0
  let indClaims ← safe_int r.claimsInd 0
  let comClaims ← safe_int r.claimsCom 0
  let indTitles ← safe_int r.titlesInd 0
  let comTitles ← safe_int r.titlesCom 0
  Except.ok (claims, titles, indClaims, comClaims, indTitles, comTitles)

/-- The aggregation loop of `get_all_india_summary` (lines 442-474): skip
records whose state is `"Total"` or empty, coerce the six counts, accumulate
the totals, find the approval percentage of the state, and append the state
entry with `processing_efficiency = round(titles / max(claims, 1) * 100, 2)`. -/
def allIndiaLoop (apprs : List ApprovalRaw) : List ClaimRaw → Except PyError (AllTotals × List AllIndiaStateEntry)
  | [] => Except.ok (⟨0, 0, 0, 0, 0, 0⟩, [])
  | r :: rest =>
    if r.state == "Total" || r.state == "" then allIndiaLoop apprs rest
    else
      match allIndiaNums r with
      | Except.error e => Except.error e
      | Except.ok (claims, titles, indClaims, comClaims, indTitles, comTitles) =>
        let entry : AllIndiaStateEntry :=
          { state := r.state
            claims_received := claims
            titles_distributed := titles
            processing_efficiency :=
              pyRound2 ((titles : ℚ) / ((max claims 1 : ℤ) : ℚ) * 100)
            approval_percentage := allIndiaFindApproval apprs r.state }
        match allIndiaLoop apprs rest with
        | Except.error e => Except.error e
        | Except.ok (t, es) =>
          Except.ok
            (⟨t.claims + claims, t.titles + titles, t.indClaims + indClaims,
              t.comClaims + comClaims, t.indTitles + indTitles, t.comTitles + comTitles⟩,
             entry :: es)

/-- The `all_india_summary` dict of the response (lines 485-496 and the
fallback at 512-523); the `last_updated` timestamp (a clock read) is not
modelled. -/
structure AllIndiaSummaryData where
  total_claims_received : Int
  total_titles_distributed : Int
  total_individual_claims : Int
  total_community_claims : Int
  total_individual_titles : Int
  total_community_titles : Int
  national_processing_efficiency : ℚ
  average_approval_percentage : PyFloat
  claims_pending : Int
  total_states_covered : Nat
deriving DecidableEq

/-- The response of `get_all_india_summary`; `error` is the extra `"error"`
key present only in the fallback dict, `metadata_source` is
`metadata["source"]`. -/
structure AllIndiaResp where
  success : Bool
  all_india_summary : AllIndiaSummaryData
  top_states : List AllIndiaStateEntry
  error : Option String
  metadata_source : String
deriving DecidableEq

/-- Top-level keys of the success response dict of `get_all_india_summary`
(lines 483-504). -/
def allIndiaSuccessKeys : List String :=
  ["success", "all_india_summary", "top_states", "metadata"]

/-- Top-level keys of the fallback response dict of `get_all_india_summary`
(lines 510-537): an extra `"error"` key. -/
def allIndiaFallbackKeys : List String :=
  ["success", "all_india_summary", "top_states", "error", "metadata"]

/-- Keys of `metadata` in the success response (lines 498-503). -/
def allIndiaSuccessMetaKeys : List String :=
  ["source", "data_as_on", "approval_data_as_on", "last_updated"]

/-- Keys of `metadata` in the fallback response (lines 532-536). -/
def allIndiaFallbackMetaKeys : List String :=
  ["source", "api_status", "last_updated"]

/-- The hard-coded fallback response of `get_all_india_summary`
(lines 510-537). -/
def allIndiaFallback : AllIndiaResp :=
  { success := false
    all_india_summary :=
      { total_claims_received := 5054316
        total_titles_distributed := 2487347
        total_individual_claims := 4823245
        total_community_claims := 231071
        total_individual_titles := 2398456
        total_community_titles := 88891
        national_processing_efficiency := 49.21
        average_approval_percentage := PyFloat.finite 52.5
        claims_pending := 2566969
        total_states_covered := 28 }
    top_states :=
      [⟨"Chhattisgarh", 941977, 527833, 56.03, PyFloat.finite 46.9⟩,
       ⟨"Odisha", 675637, 468371, 69.32, PyFloat.finite 69.33⟩,
       ⟨"Telangana", 655249, 231456, 35.32, PyFloat.finite 62.08⟩,
       ⟨"Madhya Pradesh", 627513, 294877, 46.99, PyFloat.finite 62.17⟩,
       ⟨"Andhra Pradesh", 287979, 228119, 79.21, PyFloat.finite 53.71⟩]
    error := some "Government API temporarily unavailable"
    metadata_source := "Fallback data system" }

/-- `get_all_india_summary` (lines 390-537), as a function of the two fetch
results (the primary claims dataset and the approval dataset).  The `try`
block spans both fetches and all processing, so a fetch failure (an
`HTTPException` from `make_request`) or an `OverflowError` escaping
`safe_int` lands in the `except` and returns the fallback response. -/
def getAllIndiaSummary (dataFetch : Except Nat (List ClaimRaw))
    (approvalFetch : Except Nat (List ApprovalRaw)) : AllIndiaResp :=
  match dataFetch, approvalFetch with
  | Except.ok recs, Except.ok apprs =>
    match allIndiaLoop apprs recs with
    | Except.error _ => allIndiaFallback
    | Except.ok (t, entries) =>
      let avgApproval : PyFloat :=
        if entries.isEmpty then PyFloat.finite 0
        else (sumPyF (entries.map (fun s => s.approval_percentage))).divNat entries.length
      let sorted :=
        pySort (fun a b => decide (b.claims_received ≤ a.claims_received)) entries
      { success := true
        all_india_summary :=
          { total_claims_received := t.claims
            total_titles_distributed := t.titles
            total_individual_claims := t.indClaims
            total_community_claims := t.comClaims
            total_individual_titles := t.indTitles
            total_community_titles := t.comTitles
            national_processing_efficiency :=
              pyRound2 ((t.titles : ℚ) / ((max t.claims 1 : ℤ) : ℚ) * 100)
            average_approval_percentage := pyRoundF2 avgApproval
            claims_pending := t.claims - t.titles
            total_states_covered := entries.length }
        top_states := sorted.take 10
        error := Option.none
        metadata_source := "Ministry of Tribal Affairs" }
  | _, _ => allIndiaFallback

/-- One district entry of a state summary (lines 598-602): name,
claims received, titles distributed. -/
structure DistrictEntry where
  name : String
  claims_received : Int
  titles_distributed : Int
deriving DecidableEq

/-- One entry of `states_data` in `get_states_summary` (lines 587-604);
`districts` is present only when `include_districts` was requested. -/
structure StateSummaryEntry where
  state : String
  total_claims_received : Int
  total_titles_distributed : Int
  processing_efficiency : ℚ
  status : String
  data_as_on : String
  districts : Option (List DistrictEntry)
deriving DecidableEq

/-- The two `safe_int` coercions of one record in `get_states_summary`
(lines 576-577). -/
def statesNums (r : ClaimRaw) : Except PyError (Int × Int) := do
  let claims ← safe_int r.claimsTotal 0
  let titles ← safe_int r.titlesTotal 0
  Except.ok (claims, titles)

/-- The per-record loop of `get_states_summary` (lines 571-604): skip
records with an empty state name; `processing_efficiency` is `0` unless
`claims_received > 0`, in which case it is
`round(titles / claims * 100, 2)`; `status` is `"active"` if titles were
distributed, else `"pending"` if claims were received, else `"inactive"`. -/
def statesLoop (includeDistricts : Bool) : List ClaimRaw → Except PyError (List StateSummaryEntry)
  | [] => Except.ok []
  | r :: rest =>
    if r.state == "" then statesLoop includeDistricts rest
    else
      match statesNums r with
      | Except.error e => Except.error e
      | Except.ok (claims, titles) =>
        let entry : StateSummaryEntry :=
          { state := r.state
            total_claims_received := claims
            total_titles_distributed := titles
            processing_efficiency :=
              if 0 < claims then pyRound2 ((titles : ℚ) / ((claims : ℤ) : ℚ) * 100) else 0
            status :=
              if 0 < titles then "active" else if 0 < claims then "pending" else "inactive"
            data_as_on := "30.06.2024"
            districts :=
              if includeDistricts then some [⟨"Various Districts", claims, titles⟩]
              else Option.none }
        match statesLoop includeDistricts rest with
        | Except.error e => Except.error e
        | Except.ok es => Except.ok (entry :: es)

/-- The response of `get_states_summary`; `error` is the extra `"error"` key
present only in the fallback dict, the `summary` dict is inlined as the
`total_states` .. `pending_states` fields, `metadata_source` is
`metadata["source"]` (timestamps are not modelled). -/
structure StatesResp where
  success : Bool
  states : List StateSummaryEntry
  error : Option String
  total_states : Nat
  total_claims_all_states : Int
  total_titles_all_states : Int
  average_processing_efficiency : ℚ
  active_states : Nat
  pending_states : Nat
  metadata_source : String
deriving DecidableEq

/-- The hard-coded `fallback_states` list of `get_states_summary`
(lines 640-651). -/
def fallbackStates : List StateSummaryEntry :=
  [⟨"Odisha", 675637, 468371, 69.33, "active", "30.06.2024", Option.none⟩,
   ⟨"Chhattisgarh", 456789, 298456, 65.34, "active", "30.06.2024", Option.none⟩,
   ⟨"Madhya Pradesh", 398745, 234567, 58.84, "active", "30.06.2024", Option.none⟩,
   ⟨"Jharkhand", 345678, 198765, 57.49, "active", "30.06.2024", Option.none⟩,
   ⟨"Maharashtra", 289456, 167890, 58.02, "active", "30.06.2024", Option.none⟩,
   ⟨"Telangana", 234567, 145678, 62.08, "active", "30.06.2024", Option.none⟩,
   ⟨"Andhra Pradesh", 198765, 106789, 53.71, "active", "30.06.2024", Option.none⟩,
   ⟨"West Bengal", 156789, 89456, 57.07, "active", "30.06.2024", Option.none⟩,
   ⟨"Assam", 134567, 51023, 37.93, "active", "30.06.2024", Option.none⟩,
   ⟨"Tripura", 98765, 67890, 68.75, "active", "30.06.2024", Option.none⟩]

/-- The fallback response of `get_states_summary` (lines 655-673):
`fallback_states[:limit]`, `success: False`, fixed summary numbers, and
`metadata.source = "Fallback data system"`. -/
def statesFallback (limit : Nat) : StatesResp :=
  let sel := fallbackStates.take limit
  { success := false
    states := sel
    error := some "Government API temporarily unavailable"
    total_states := sel.length
    total_claims_all_states := (sel.map (fun s => s.total_claims_received)).sum
    total_titles_all_states := (sel.map (fun s => s.total_titles_distributed)).sum
    average_processing_efficiency := 58.5
    active_states := sel.length
    pending_states := 0
    metadata_source := "Fallback data system" }

/-- `get_states_summary` (lines 540-673) as a function of the primary fetch
result: process and skip records, sort by claims received descending
(Python's stable sort), truncate to `limit`, and compute the summary over
the truncated list; any exception inside the `try` (fetch failure or an
escaping `OverflowError`) yields the fallback response. -/
def getStatesSummary (dataFetch : Except Nat (List ClaimRaw)) (limit : Nat)
    (includeDistricts : Bool) : StatesResp :=
  match dataFetch with
  | Except.error _ => statesFallback limit
  | Except.ok recs =>
    match statesLoop includeDistricts recs with
    | Except.error _ => statesFallback limit
    | Except.ok entries =>
      let sorted :=
        pySort (fun a b => decide (b.total_claims_received ≤ a.total_claims_received)) entries
      let sel := sorted.take limit
      let totalClaims := (sel.map (fun s => s.total_claims_received)).sum
      let totalTitles := (sel.map (fun s => s.total_titles_distributed)).sum
      let activeStates := (sel.filter (fun s => s.status == "active")).length
      { success := true
        states := sel
        error := Option.none
        total_states := sel.length
        total_claims_all_states := totalClaims
        total_titles_all_states := totalTitles
        average_processing_efficiency :=
          if 0 < totalClaims then pyRound2 ((totalTitles : ℚ) / ((totalClaims : ℤ) : ℚ) * 100)
          else 0
        active_states := activeStates
        pending_states := sel.length - activeStates
        metadata_source := "Ministry of Tribal Affairs - Latest FRA Claims" }

/-- One record of the historical dataset (`/resource/dcf9aaac-...`) as read
by the fallback branch of `get_comprehensive_claims` (lines 828-860):
`state`/`district` model `record.get(key, "Unknown")` (`Option.none` for a
missing key), numeric fields hold the raw values. -/
structure HistRaw where
  idValue : Option Value
  state : Option String
  district : Option String
  indClaims : Value
  comClaims : Value
  indTitles : Value
  comTitles : Value
  area : Value
deriving DecidableEq

/-- One processed claim record of `get_comprehensive_claims` (the dicts
built at lines 769-797 and 832-860).  The `raw_government_data` field (a
verbatim echo of the upstream record) is not modelled. -/
structure ClaimRecord where
  id : Value
  claim_id : Value
  state : String
  district : String
  applicant_name : String
  father_name : String
  tehsil : String
  village : String
  claim_type : String
  status : String
  individual_claims_received : Int
  community_claims_received : Int
  total_claims_received : Int
  individual_titles_distributed : Int
  community_titles_distributed : Int
  total_titles_distributed : Int
  application_date : String
  last_updated : String
  survey_number : String
  verification_status : String
  source : String
  year : String
  area_in_hectares : Int
  approval_percentage : PyFloat
  processing_efficiency : ℚ
  data_quality : String
deriving DecidableEq

/-- The status derivation of `get_comprehensive_claims` (line 762):
`"distributed"` if titles were distributed, else `"received"` if claims
were received, else `"pending"`. -/
def recordStatus (titles claims : Int) : String :=
  if 0 < titles then "distributed" else if 0 < claims then "received" else "pending"

/-- The seven `safe_int` coercions of one primary record in
`get_comprehensive_claims` (lines 753-759), in source order. -/
def liveNums (r : ClaimRaw) : Except PyError (Int × Int × Int × Int × Int × Int × Int) := do
  let claims ← safe_int_cc r.claimsTotal 0
  let titles ← safe_int_cc r.titlesTotal 0
  let indClaims ← safe_int_cc r.claimsInd 0
  let comClaims ← safe_int_cc r.claimsCom 0
  let indTitles ← safe_int_cc r.titlesInd 0
  let comTitles ← safe_int_cc r.titlesCom 0
  let area ← safe_int_cc r.area 0
  Except.ok (claims, titles, indClaims, comClaims, indTitles, comTitles, area)

/-- The live claim record built at lines 769-797 of
`get_comprehensive_claims`; `n` is `len(all_processed_claims)` at build
time, `nowTs` the `settings.get_current_timestamp()` clock value. -/
def mkLiveRecord (lk : String → Option PyFloat) (nowTs : String) (r : ClaimRaw)
    (claims titles indClaims comClaims indTitles comTitles area : Int)
    (n : Nat) : ClaimRecord :=
  { id := r.idValue.getD (Value.str ("claim_" ++ toString n))
    claim_id := r.idValue.getD (Value.str ("claim_" ++ toString n))
    state := r.state
    district := r.district
    applicant_name := "Government Record " ++ toString (n + 1)
    father_name := "N/A"
    tehsil := "N/A"
    village := "N/A"
    claim_type := "Mixed"
    status := recordStatus titles claims
    individual_claims_received := indClaims
    community_claims_received := comClaims
    total_claims_received := claims
    individual_titles_distributed := indTitles
    community_titles_distributed := comTitles
    total_titles_distributed := titles
    application_date := "2024-06-30"
    last_updated := nowTs
    survey_number := "N/A"
    verification_status := "Verified"
    source := "Ministry of Tribal Affairs - 2024"
    year := "2024"
    area_in_hectares := area
    approval_percentage := pyDictGetD lk r.state (PyFloat.finite 0)
    processing_efficiency := pyRound2 ((titles : ℚ) / ((max claims 1 : ℤ) : ℚ) * 100)
    data_quality := "verified" }

/-- The district filter of `get_comprehensive_claims` (line 747):
skip when a (truthy) district filter differs case-insensitively from
the record's district. -/
def skipDistrict (district : Option String) (districtName : String) : Bool :=
  match district with
  | Option.none => false
  | some d => !(d == "") && !(strLower d == strLower districtName)

/-- The free-text search filter (line 749): skip when a (truthy) search
string is not a case-insensitive substring of the state name. -/
def skipSearch (search : Option String) (stateName : String) : Bool :=
  match search with
  | Option.none => false
  | some s => !(s == "") && !(strContains (strLower stateName) (strLower s))

/-- The status filter (line 763): skip when a (truthy) status filter
differs case-insensitively from the derived record status. -/
def skipStatus (statusF : Option String) (recStatus : String) : Bool :=
  match statusF with
  | Option.none => false
  | some s => !(s == "") && !(strLower s == strLower recStatus)

/-- The date filter (lines 800-804): the record date is the CURRENT date
(`datetime.now()`), so the record is skipped when `today` is before a
truthy `date_from` or after a truthy `date_to` (string comparison). -/
def skipDate (dateFrom dateTo : Option String) (today : String) : Bool :=
  (match dateFrom with
   | Option.none => false
   | some f => !(f == "") && strLtB today f) ||
  (match dateTo with
   | Option.none => false
   | some t => !(t == "") && strLtB t today)

/-- The main processing loop of `get_comprehensive_claims` (lines 741-807):
apply the district and search filters, coerce the seven counts (an escaping
`OverflowError` aborts the whole request), derive the status and apply the
status filter, build the record, apply the date filter, and append. -/
def compLoop (lk : String → Option PyFloat) (district statusF search dateFrom dateTo : Option String)
    (today nowTs : String) :
    List ClaimRaw → List ClaimRecord → Except PyError (List ClaimRecord)
  | [], acc => Except.ok acc
  | r :: rest, acc =>
    if skipDistrict district r.district then
      compLoop lk district statusF search dateFrom dateTo today nowTs rest acc
    else if skipSearch search r.state then
      compLoop lk district statusF search dateFrom dateTo today nowTs rest acc
    else
      match liveNums r with
      | Except.error e => Except.error e
      | Except.ok (claims, titles, indClaims, comClaims, indTitles, comTitles, area) =>
        if skipStatus statusF (recordStatus titles claims) then
          compLoop lk district statusF search dateFrom dateTo today nowTs rest acc
        else
          let c := mkLiveRecord lk nowTs r claims titles indClaims comClaims indTitles
            comTitles area acc.length
          if skipDate dateFrom dateTo today then
            compLoop lk district statusF search dateFrom dateTo today nowTs rest acc
          else
            compLoop lk district statusF search dateFrom dateTo today nowTs rest (acc ++ [c])

/-- The historical claim record built at lines 832-860; `n` is
`len(paginated_claims)` at build time. -/
def buildHistRecord (r : HistRaw) (n : Nat) : Except PyError ClaimRecord := do
  let indClaims ← safe_int_cc r.indClaims 0
  let comClaims ← safe_int_cc r.comClaims 0
  let indTitles ← safe_int_cc r.indTitles 0
  let comTitles ← safe_int_cc r.comTitles 0
  let area ← safe_int_cc r.area 0
  Except.ok
    { id := r.idValue.getD (Value.str ("historical_" ++ toString n))
      claim_id := r.idValue.getD (Value.str ("historical_" ++ toString n))
      state := r.state.getD "Unknown"
      district := r.district.getD "Unknown"
      applicant_name := "Historical Record " ++ toString (n + 1)
      father_name := "N/A"
      tehsil := "N/A"
      village := "N/A"
      claim_type := "Historical"
      status := "historical"
      individual_claims_received := indClaims
      community_claims_received := comClaims
      total_claims_received := indClaims + comClaims
      individual_titles_distributed := indTitles
      community_titles_distributed := comTitles
      total_titles_distributed := indTitles + comTitles
      application_date := "2017-11-30"
      last_updated := "2017-11-30"
      survey_number := "N/A"
      verification_status := "Historical"
      source := "Ministry of Tribal Affairs - Historical (2017)"
      year := "2017"
      area_in_hectares := area
      approval_percentage := PyFloat.finite 0
      processing_efficiency := 0
      data_quality := "historical" }

/-- The historical append loop (lines 828-861): records are appended to the
(empty) page one by one; an `OverflowError` escaping `safe_int` mid-loop is
caught by the inner `except` (line 863), leaving the records appended so
far in place. -/
def histLoop : List HistRaw → List ClaimRecord → List ClaimRecord
  | [], acc => acc
  | r :: rest, acc =>
    match buildHistRecord r acc.length with
    | Except.error _ => acc
    | Except.ok c => histLoop rest (acc ++ [c])

/-- The optional in-place sort of `get_comprehensive_claims`
(lines 877-893): only for a truthy `sort_by` naming one of the six allowed
keys and a nonempty page; `sort_order` `"desc"` (case-insensitive) reverses.
Python's `list.sort` is stable, modelled by `pySort`. -/
def sortClaims (sortBy : Option String) (sortOrder : String) (l : List ClaimRecord) :
    List ClaimRecord :=
  if optTruthy sortBy && !l.isEmpty then
    let sb := sortBy.getD ""
    let rev := strLower sortOrder == "desc"
    if sb == "state" then
      if rev then pySort (fun a b => strLeB b.state a.state) l
      else pySort (fun a b => strLeB a.state b.state) l
    else if sb == "district" then
      if rev then pySort (fun a b => strLeB b.district a.district) l
      else pySort (fun a b => strLeB a.district b.district) l
    else if sb == "claims_received" then
      if rev then pySort (fun a b => decide (b.total_claims_received ≤ a.total_claims_received)) l
      else pySort (fun a b => decide (a.total_claims_received ≤ b.total_claims_received)) l
    else if sb == "titles_distributed" then
      if rev then
        pySort (fun a b => decide (b.total_titles_distributed ≤ a.total_titles_distributed)) l
      else pySort (fun a b => decide (a.total_titles_distributed ≤ b.total_titles_distributed)) l
    else if sb == "processing_efficiency" then
      if rev then pySort (fun a b => decide (b.processing_efficiency ≤ a.processing_efficiency)) l
      else pySort (fun a b => decide (a.processing_efficiency ≤ b.processing_efficiency)) l
    else if sb == "last_updated" then
      if rev then pySort (fun a b => strLeB b.last_updated a.last_updated) l
      else pySort (fun a b => strLeB a.last_updated b.last_updated) l
    else l
  else l

/-- The `pagination` dict of the response (lines 905-914). -/
structure Pagination where
  total_count : Nat
  current_page : Nat
  total_pages : Nat
  has_next : Bool
  has_previous : Bool
  offset : Nat
  limit : Nat
  returned : Nat
deriving DecidableEq

/-- The `summary` dict of the response (lines 915-922). -/
structure CompSummary where
  total_claims_received : Int
  total_titles_distributed : Int
  total_individual_claims : Int
  total_community_claims : Int
  overall_processing_efficiency : ℚ
  states_covered : Nat
deriving DecidableEq

/-- The success response of `get_comprehensive_claims` (lines 901-938);
the `filters_applied` dict is inlined as the `filters*` fields,
`metadata_source` is `metadata["source"]` (timestamps not modelled). -/
structure CompResp where
  success : Bool
  claims : List ClaimRecord
  total_count : Nat
  pagination : Pagination
  summary : CompSummary
  filtersState : Option String
  filtersDistrict : Option String
  filtersYear : Option Int
  filtersStatus : Option String
  filtersDateRange : Option String
  filtersSearch : Option String
  metadata_source : String
deriving DecidableEq

/-- The page of records the operation will return before sorting
(lines 812-864): the slice `[offset : offset + limit]` of the filtered
records, replaced by records built from the historical dataset when the
slice is empty and no state filter is given; a failed historical fetch is
caught by the inner `except` (line 863) and ignored. -/
def compPage2 (histFetch : Except Nat (List HistRaw)) (state : Option String)
    (limit offset : Nat) (processed : List ClaimRecord) : List ClaimRecord :=
  let page := (processed.drop offset).take limit
  if page.isEmpty && !optTruthy state then
    match histFetch with
    | Except.ok hrecs => histLoop hrecs page
    | Except.error _ => page
  else page

/-- The successful response of `get_comprehensive_claims` (lines 809-938),
built from the processed record list: total count after filtering
(line 810), the returned page (`compPage2`), page-level summary sums
(lines 866-870), the optional sort (lines 877-893), and the
pagination/summary/filters dicts (lines 895-938).  The `year` parameter is
accepted and echoed but never used for filtering. -/
def mkCompResp (histFetch : Except Nat (List HistRaw))
    (state district : Option String) (year : Option Int) (statusF : Option String)
    (dateFrom dateTo search : Option String)
    (limit offset : Nat) (sortBy : Option String) (sortOrder : String)
    (processed : List ClaimRecord) : CompResp :=
  let totalCount := processed.length
  let page2 := compPage2 histFetch state limit offset processed
  let sumClaims := (page2.map (fun c => c.total_claims_received)).sum
      let sumTitles := (page2.map (fun c => c.total_titles_distributed)).sum
      let sumInd := (page2.map (fun c => c.individual_claims_received)).sum
      let sumCom := (page2.map (fun c => c.community_claims_received)).sum
  let sorted := sortClaims sortBy sortOrder page2
  { success := true
    claims := sorted
    total_count := totalCount
    pagination :=
      { total_count := totalCount
        current_page := offset / limit + 1
        total_pages := max ((totalCount + limit - 1) / limit) 1
        has_next := decide (offset + limit < totalCount)
        has_previous := decide (0 < offset)
        offset := offset
        limit := limit
        returned := sorted.length }
    summary :=
      { total_claims_received := sumClaims
        total_titles_distributed := sumTitles
        total_individual_claims := sumInd
        total_community_claims := sumCom
        overall_processing_efficiency :=
          pyRound2 ((sumTitles : ℚ) / ((max sumClaims 1 : ℤ) : ℚ) * 100)
        states_covered := ((sorted.map (fun c => c.state)).dedup).length }
    filtersState := state
    filtersDistrict := district
    filtersYear := year
    filtersStatus := statusF
    filtersDateRange :=
      if optTruthy dateFrom || optTruthy dateTo then
        some (dateFrom.getD "None" ++ " to " ++ dateTo.getD "None")
      else Option.none
    filtersSearch := search
    metadata_source := "Multiple Ministry of Tribal Affairs APIs" }

/-- `get_comprehensive_claims` (lines 676-938) as a function of the three
fetch results and the request parameters: on success the response built by
`mkCompResp` from the processed record list; any exception inside the outer
`try` — a failed primary or approval fetch or an escaping `OverflowError` —
is caught at line 872 and re-raised as `HTTPException(500)`, modelled as
`Except.error 500`. -/
def getComprehensiveClaims (allFetch : Except Nat (List ClaimRaw))
    (approvalFetch : Except Nat (List ApprovalRaw))
    (histFetch : Except Nat (List HistRaw))
    (state district : Option String) (year : Option Int) (statusF : Option String)
    (dateFrom dateTo search : Option String) (today nowTs : String)
    (limit offset : Nat) (sortBy : Option String) (sortOrder : String) :
    Except Nat CompResp :=
  match allFetch, approvalFetch with
  | Except.ok allRecs, Except.ok apprRecs =>
    match compLoop (approvalLookupFun apprRecs) district statusF search dateFrom dateTo
        today nowTs allRecs [] with
    | Except.error _ => Except.error 500
    | Except.ok processed =>
      Except.ok (mkCompResp histFetch state district year statusF dateFrom dateTo search
        limit offset sortBy sortOrder processed)
  | _, _ => Except.error 500

/-- `pyInsert` permutes: inserting is a permutation of consing. -/
theorem pyInsert_perm {α : Type} (le : α → α → Bool) (a : α) (l : List α) :
    List.Perm (pyInsert le a l) (a :: l) := by
  induction l with
  | nil => simp [pyInsert]
  | cons b bs ih =>
    simp only [pyInsert]
    split
    · exact List.Perm.refl _
    · exact (ih.cons b).trans (List.Perm.swap a b bs)

/-- `pySort` permutes its input. -/
theorem pySort_perm {α : Type} (le : α → α → Bool) (l : List α) :
    List.Perm (pySort le l) l := by
  induction l with
  | nil => simp [pySort]
  | cons a as ih =>
    have h : pySort le (a :: as) = pyInsert le a (pySort le as) := rfl
    rw [h]
    exact (pyInsert_perm le a (pySort le as)).trans (ih.cons a)

/-- `pySort` preserves length. -/
theorem pySort_length {α : Type} (le : α → α → Bool) (l : List α) :
    (pySort le l).length = l.length :=
  (pySort_perm le l).length_eq

/-- `sortClaims` permutes its input, whatever the sort key and order. -/
theorem sortClaims_perm (sortBy : Option String) (sortOrder : String) (l : List ClaimRecord) :
    List.Perm (sortClaims sortBy sortOrder l) l := by
  unfold sortClaims
  dsimp only
  repeat' split
  all_goals first | exact pySort_perm _ _ | exact List.Perm.refl _

/-- `sortClaims` preserves length. -/
theorem sortClaims_length (sortBy : Option String) (sortOrder : String) (l : List ClaimRecord) :
    (sortClaims sortBy sortOrder l).length = l.length :=
  (sortClaims_perm sortBy sortOrder l).length_eq

/-- C3: evaluation of the code at the failing input `"inf"`.  The claim says
`safeInt` never raises and returns the caller default on any parse failure;
the code computes `int(float("inf"))`, whose `OverflowError` is not caught
by the `except (ValueError, TypeError)` clause, so both `safe_int` variants
raise.  (`safe_float` on the same input returns `inf` without raising, as
the claim states.)  The companion conjuncts confirm the documented sentinel
and parse-failure behavior on ordinary inputs. -/
theorem C3_thm :
    safe_int (Value.str "inf") 0 = Except.error PyError.overflowError
  ∧ safe_int_cc (Value.str "inf") 0 = Except.error PyError.overflowError
  ∧ safe_float (Value.str "inf") (PyFloat.finite 0) = PyFloat.inf
  ∧ safe_int Value.none 9 = Except.ok 9
  ∧ safe_int (Value.str "na") 7 = Except.ok 7
  ∧ safe_int (Value.str "N.a.") 7 = Except.ok 7
  ∧ safe_int (Value.str "") 7 = Except.ok 7
  ∧ safe_int (Value.str "null") 7 = Except.ok 7
  ∧ safe_int_cc (Value.str "NULL") 7 = Except.ok 7
  ∧ safe_int (Value.str "not-a-number") 7 = Except.ok 7
  ∧ safe_int (Value.str "-5.9") 0 = Except.ok (-5)
  ∧ safe_float (Value.str "69.33") (PyFloat.finite 0) = PyFloat.finite (6933 / 100)
  ∧ safe_float (Value.str "NA") (PyFloat.finite 0) = PyFloat.finite 0 := by
  decide

/-- C1 counterexample: the comprehensive-claims operation is an exposed
aggregation operation whose primary fetch here has failed after all retries
(`Except.error 503` from `make_request`), yet the operation does not return
a `success:false` fallback payload: it raises `HTTPException(500)`
(line 874), i.e. a hard HTTP failure, refuting the claim at this input. -/
theorem C1_cex :
    getComprehensiveClaims (Except.error 503) (Except.ok []) (Except.error 500)
      Option.none Option.none Option.none Option.none Option.none Option.none Option.none
      "2025-09-01" "ts" 10 0 Option.none "asc" = Except.error 500 := by
  decide

/-- C1 (amended): on a failed primary fetch the all-India and states
summaries return their fallback responses with `success:false` and
`metadata.source = "Fallback data system"`, but `get_comprehensive_claims`
instead surfaces a hard HTTP 500 failure, and even for the fallback-returning
operations the payload shape is not field-for-field identical to a success
response (the fallback dict has an extra `"error"` key). -/
theorem C1_thm :
    (∀ (e : Nat) (apf : Except Nat (List ApprovalRaw)),
        getAllIndiaSummary (Except.error e) apf = allIndiaFallback)
  ∧ allIndiaFallback.success = false
  ∧ allIndiaFallback.metadata_source = "Fallback data system"
  ∧ (∀ (e : Nat) (lim : Nat) (incl : Bool),
        getStatesSummary (Except.error e) lim incl = statesFallback lim)
  ∧ (∀ lim : Nat, (statesFallback lim).success = false
      ∧ (statesFallback lim).metadata_source = "Fallback data system")
  ∧ (∀ (e : Nat) (apf : Except Nat (List ApprovalRaw)) (hf : Except Nat (List HistRaw))
      (st d : Option String) (y : Option Int) (stf df dt se : Option String)
      (td ts : String) (lim off : Nat) (sb : Option String) (so : String),
        getComprehensiveClaims (Except.error e) apf hf st d y stf df dt se td ts lim off sb so
          = Except.error 500)
  ∧ allIndiaFallbackKeys.contains "error" = true
  ∧ allIndiaSuccessKeys.contains "error" = false := by
  refine ⟨fun e apf => ?_, rfl, rfl, fun e lim incl => rfl, fun lim => ⟨rfl, rfl⟩,
    fun e apf hf st d y stf df dt se td ts lim off sb so => ?_, by decide, by decide⟩
  · cases apf <;> rfl
  · cases apf <;> rfl

/-- At retry counter 2 (`max_retries` reached) no further delay is slept,
whatever the next outcome. -/
theorem makeRequest_delays_two {α : Type} (xs : List (FetchOutcome α)) :
    (makeRequest xs 2).1 = [] := by
  cases xs with
  | nil => rfl
  | cons x rest => cases x with
    | ok a => rfl
    | status c => rfl
    | timeout => rfl

/-- From retry counter 1, at most one more delay (of 2 s) is slept. -/
theorem makeRequest_delays_one {α : Type} (xs : List (FetchOutcome α)) :
    (makeRequest xs 1).1 = [] ∨ (makeRequest xs 1).1 = [2] := by
  cases xs with
  | nil => exact Or.inl rfl
  | cons x rest =>
    cases x with
    | ok a => exact Or.inl rfl
    | status c =>
      by_cases hc : c ∈ [500, 502, 503, 504, 429]
      · refine Or.inr ?_
        simp [makeRequest, hc, makeRequest_delays_two]
      · refine Or.inl ?_
        simp [makeRequest, hc]
    | timeout =>
      refine Or.inr ?_
      simp [makeRequest, makeRequest_delays_two]

/-- C2 counterexample: with every attempt answering HTTP 503 the client
retries with delays 1 s then 2 s, but the error that escapes carries status
500 — the innermost `HTTPException(503)` is caught by its own frame's
`except Exception` and re-raised as 500 — not the last observed status 503;
likewise a single non-retryable 404 fails immediately but surfaces as 500,
not 404.  This refutes "an error carrying the last observed status". -/
theorem C2_cex :
    makeRequest [FetchOutcome.status 503, FetchOutcome.status 503, FetchOutcome.status 503] 0
      = ([1, 2], (Except.error 500 : Except Nat Unit))
  ∧ decide ((Except.error 500 : Except Nat Unit) = Except.error 503) = false
  ∧ makeRequest [FetchOutcome.status 404] 0 = ([], (Except.error 500 : Except Nat Unit))
  ∧ decide ((Except.error 500 : Except Nat Unit) = Except.error 404) = false := by
  decide

/-- C2 (amended): a 200 response returns the decoded dataset with no retry;
a non-retryable status fails immediately (no delay) with an error of status
500 (the original status is wrapped, not preserved); three retryable
statuses exhaust the 2 retries with backoff delays 1 s then 2 s and
surface as 500; three timeouts exhaust the retries with the same delays
and surface as 504; and no run of the client ever sleeps more than the
two delays 1 s and 2 s. -/
theorem C2_thm {α : Type} (x0 : FetchOutcome α) (rest : List (FetchOutcome α))
    (c : Nat) (d : α) :
    (x0 = FetchOutcome.ok d → makeRequest (x0 :: rest) 0 = ([], Except.ok d))
  ∧ (x0 = FetchOutcome.status c → c ∉ [500, 502, 503, 504, 429] →
      makeRequest (x0 :: rest) 0 = ([], Except.error 500))
  ∧ (∀ c0 c1 c2 : Nat, c0 ∈ [500, 502, 503, 504, 429] → c1 ∈ [500, 502, 503, 504, 429] →
      c2 ∈ [500, 502, 503, 504, 429] →
      makeRequest [FetchOutcome.status c0, FetchOutcome.status c1, FetchOutcome.status c2] 0
        = ([1, 2], (Except.error 500 : Except Nat α)))
  ∧ makeRequest [FetchOutcome.timeout, FetchOutcome.timeout, FetchOutcome.timeout] 0
      = ([1, 2], (Except.error 504 : Except Nat α))
  ∧ ((makeRequest (x0 :: rest) 0).1 = [] ∨ (makeRequest (x0 :: rest) 0).1 = [1]
      ∨ (makeRequest (x0 :: rest) 0).1 = [1, 2]) := by
  refine ⟨?_, ?_, ?_, ?_, ?_⟩
  · intro h
    subst h
    rfl
  · intro h hc
    subst h
    simp [makeRequest, hc]
  · intro c0 c1 c2 h0 h1 h2
    simp [makeRequest, h0, h1, h2]
  · rfl
  · cases x0 with
    | ok a => exact Or.inl rfl
    | status c0 =>
      by_cases hc : c0 ∈ [500, 502, 503, 504, 429]
      · rcases makeRequest_delays_one rest with h | h
        · refine Or.inr (Or.inl ?_)
          simp [makeRequest, hc, h]
        · refine Or.inr (Or.inr ?_)
          simp [makeRequest, hc, h]
      · refine Or.inl ?_
        simp [makeRequest, hc]
    | timeout =>
      rcases makeRequest_delays_one rest with h | h
      · refine Or.inr (Or.inl ?_)
        simp [makeRequest, h]
      · refine Or.inr (Or.inr ?_)
        simp [makeRequest, h]

/-- C2 witness: the amended theorem applied at a concrete retryable run. -/
theorem C2_wit :
    makeRequest [FetchOutcome.status 503, FetchOutcome.status 502, FetchOutcome.status 429] 0
      = ([1, 2], (Except.error 500 : Except Nat Unit)) :=
  (C2_thm (FetchOutcome.status 503) [] 0 ()).2.2.1 503 502 429 (by decide) (by decide) (by decide)

/-- Both derived fields of a live comprehensive-claims record restate its
own count fields: the efficiency formula of line 794 and the status
priority rule of line 762. -/
def liveRecordOk (c : ClaimRecord) : Prop :=
  c.processing_efficiency
    = pyRound2 ((c.total_titles_distributed : ℚ)
        / ((max c.total_claims_received 1 : ℤ) : ℚ) * 100)
  ∧ c.status = recordStatus c.total_titles_distributed c.total_claims_received

/-- Every record built by `mkLiveRecord` satisfies `liveRecordOk`. -/
theorem mkLiveRecord_ok (lk : String → Option PyFloat) (nowTs : String) (r : ClaimRaw)
    (claims titles indClaims comClaims indTitles comTitles area : Int) (n : Nat) :
    liveRecordOk (mkLiveRecord lk nowTs r claims titles indClaims comClaims indTitles
      comTitles area n) :=
  ⟨rfl, rfl⟩

/-- Loop invariant of `compLoop`: a record property holding of every
already-accumulated record and of every `mkLiveRecord` output holds of
every record in a successful result. -/
theorem compLoop_mem (lk : String → Option PyFloat)
    (district statusF search dateFrom dateTo : Option String) (today nowTs : String)
    (recs : List ClaimRaw) :
    ∀ (acc out : List ClaimRecord),
      compLoop lk district statusF search dateFrom dateTo today nowTs recs acc = Except.ok out →
      (∀ c ∈ acc, liveRecordOk c) → ∀ c ∈ out, liveRecordOk c := by
  induction recs with
  | nil =>
    intro acc out h hacc
    injection h with h
    subst h
    exact hacc
  | cons r rest ih =>
    intro acc out h hacc
    simp only [compLoop] at h
    split at h
    · exact ih acc out h hacc
    · split at h
      · exact ih acc out h hacc
      · split at h
        · exact Except.noConfusion h
        · split at h
          · exact ih acc out h hacc
          · split at h
            · exact ih acc out h hacc
            · refine ih _ out h ?_
              intro c hc
              rcases List.mem_append.mp hc with hc | hc
              · exact hacc c hc
              · rcases List.mem_singleton.mp hc with rfl
                exact mkLiveRecord_ok _ _ _ _ _ _ _ _ _ _ _

/-- Every state entry produced by `allIndiaLoop` carries the efficiency of
its own counts, `round(titles / max(claims, 1) * 100, 2)` (line 472). -/
theorem allIndiaLoop_mem (apprs : List ApprovalRaw) (recs : List ClaimRaw) :
    ∀ (t : AllTotals) (es : List AllIndiaStateEntry),
      allIndiaLoop apprs recs = Except.ok (t, es) →
      ∀ e ∈ es, e.processing_efficiency
        = pyRound2 ((e.titles_distributed : ℚ) / ((max e.claims_received 1 : ℤ) : ℚ) * 100) := by
  induction recs with
  | nil =>
    intro t es h
    injection h with h
    cases h
    intro e he
    exact absurd he (List.not_mem_nil e)
  | cons r rest ih =>
    intro t es h
    simp only [allIndiaLoop] at h
    split at h
    · exact ih t es h
    · split at h
      · exact Except.noConfusion h
      · split at h
        · exact Except.noConfusion h
        · rename_i tRest esRest heq
          injection h with h
          cases h
          intro e he
          rcases List.mem_cons.mp he with rfl | he
          · rfl
          · exact ih tRest esRest heq e he

/-- Every state entry produced by `statesLoop` carries the efficiency and
status of its own counts (lines 580-585): efficiency `0` when no claims
were received, otherwise `round(titles / claims * 100, 2)`; status
`"active"`/`"pending"`/`"inactive"`. -/
theorem statesLoop_mem (includeDistricts : Bool) (recs : List ClaimRaw) :
    ∀ es : List StateSummaryEntry,
      statesLoop includeDistricts recs = Except.ok es →
      ∀ e ∈ es,
        (e.processing_efficiency
          = if 0 < e.total_claims_received then
              pyRound2 ((e.total_titles_distributed : ℚ) / ((e.total_claims_received : ℤ) : ℚ) * 100)
            else 0)
        ∧ (e.status
          = if 0 < e.total_titles_distributed then "active"
            else if 0 < e.total_claims_received then "pending" else "inactive") := by
  induction recs with
  | nil =>
    intro es h
    injection h with h
    cases h
    intro e he
    exact absurd he (List.not_mem_nil e)
  | cons r rest ih =>
    intro es h
    simp only [statesLoop] at h
    split at h
    · exact ih es h
    · split at h
      · exact Except.noConfusion h
      · split at h
        · exact Except.noConfusion h
        · rename_i esRest heq
          injection h with h
          cases h
          intro e he
          rcases List.mem_cons.mp he with rfl | he
          · exact ⟨rfl, rfl⟩
          · exact ih esRest heq e he

/-- Every historical record carries status `"historical"`, hard-coded
efficiency `0` and approval `0` (lines 842, 856-857). -/
theorem buildHistRecord_fields (r : HistRaw) (n : Nat) :
    ∀ c : ClaimRecord, buildHistRecord r n = Except.ok c →
      c.status = "historical" ∧ c.processing_efficiency = 0
        ∧ c.approval_percentage = PyFloat.finite 0 := by
  intro c h
  simp only [buildHistRecord, bind, Except.bind] at h
  split at h
  · exact Except.noConfusion h
  · split at h
    · exact Except.noConfusion h
    · split at h
      · exact Except.noConfusion h
      · split at h
        · exact Except.noConfusion h
        · split at h
          · exact Except.noConfusion h
          · injection h with h
            cases h
            exact ⟨rfl, rfl, rfl⟩

/-- C4 counterexample: a states-summary record built from an upstream record
with 0 claims received and 5 titles distributed gets `processing_efficiency`
0 (lines 580-582 guard on `claims_received > 0`), while the claimed formula
`round(titles / max(claims, 1) * 100, 2)` yields 500 — so the claim fails on
`get_states_summary` at this concrete input. -/
theorem C4_cex :
    (getStatesSummary (Except.ok [⟨Option.none, "Odisha", "", Value.str "0", Value.str "5",
        Value.none, Value.none, Value.none, Value.none, Value.none⟩]) 50 false).states
      = [⟨"Odisha", 0, 5, 0, "active", "30.06.2024", Option.none⟩]
  ∧ pyRound2 ((5 : ℚ) / ((max (0 : Int) 1 : ℤ) : ℚ) * 100) = 500
  ∧ decide ((0 : ℚ) = 500) = false := by
  decide

/-- C4 (amended): `processing_efficiency = round(titles / max(claims, 1)
* 100, 2)` holds of every record produced by the all-India summary and by
the live path of comprehensive-claims; the states summary instead returns 0
whenever `claims_received = 0` (agreeing with the formula except when titles
were distributed with zero claims), and historical records of
comprehensive-claims have the efficiency hard-coded to 0. -/
theorem C4_thm :
    (∀ (apprs : List ApprovalRaw) (recs : List ClaimRaw) (t : AllTotals)
        (es : List AllIndiaStateEntry),
      allIndiaLoop apprs recs = Except.ok (t, es) →
      ∀ e ∈ es, e.processing_efficiency
        = pyRound2 ((e.titles_distributed : ℚ) / ((max e.claims_received 1 : ℤ) : ℚ) * 100))
  ∧ (∀ (lk : String → Option PyFloat) (d stf se df dt : Option String) (td ts : String)
        (recs : List ClaimRaw) (out : List ClaimRecord),
      compLoop lk d stf se df dt td ts recs [] = Except.ok out →
      ∀ c ∈ out, c.processing_efficiency
        = pyRound2 ((c.total_titles_distributed : ℚ)
            / ((max c.total_claims_received 1 : ℤ) : ℚ) * 100))
  ∧ (∀ (incl : Bool) (recs : List ClaimRaw) (es : List StateSummaryEntry),
      statesLoop incl recs = Except.ok es →
      ∀ e ∈ es, e.processing_efficiency
        = if 0 < e.total_claims_received then
            pyRound2 ((e.total_titles_distributed : ℚ) / ((e.total_claims_received : ℤ) : ℚ) * 100)
          else 0)
  ∧ (∀ (r : HistRaw) (n : Nat) (c : ClaimRecord),
      buildHistRecord r n = Except.ok c → c.processing_efficiency = 0) := by
  refine ⟨allIndiaLoop_mem, ?_, ?_, ?_⟩
  · intro lk d stf se df dt td ts recs out h c hc
    exact (compLoop_mem lk d stf se df dt td ts recs [] out h
      (fun c hc => absurd hc (List.not_mem_nil c)) c hc).1
  · intro incl recs es h e he
    exact (statesLoop_mem incl recs es h e he).1
  · intro r n c h
    exact (buildHistRecord_fields r n c h).2.1

/-- C4 witness: the amended theorem applied to a one-record all-India run
(100 claims, 50 titles, efficiency 50). -/
theorem C4_wit :
    (⟨"Odisha", 100, 50, 50, PyFloat.finite 0⟩ : AllIndiaStateEntry).processing_efficiency
      = pyRound2 (((⟨"Odisha", 100, 50, 50, PyFloat.finite 0⟩ : AllIndiaStateEntry).titles_distributed : ℚ)
          / ((max (⟨"Odisha", 100, 50, 50, PyFloat.finite 0⟩ : AllIndiaStateEntry).claims_received 1 : ℤ) : ℚ)
          * 100) :=
  C4_thm.1 [] [⟨Option.none, "Odisha", "", Value.str "100", Value.str "50",
      Value.none, Value.none, Value.none, Value.none, Value.none⟩]
    ⟨100, 50, 0, 0, 0, 0⟩ [⟨"Odisha", 100, 50, 50, PyFloat.finite 0⟩] (by decide)
    ⟨"Odisha", 100, 50, 50, PyFloat.finite 0⟩ (by decide)

/-- C5 counterexample: a states-summary record with titles distributed gets
status `"active"` (line 585), which is none of
`distributed`/`received`/`pending` — so "no other status value ever
appears" fails on `get_states_summary` at this concrete input. -/
theorem C5_cex :
    (getStatesSummary (Except.ok [⟨Option.none, "Odisha", "", Value.str "100", Value.str "50",
        Value.none, Value.none, Value.none, Value.none, Value.none⟩]) 50 false).states
      = [⟨"Odisha", 100, 50, 50, "active", "30.06.2024", Option.none⟩]
  ∧ decide ("active" = "distributed" ∨ "active" = "received" ∨ "active" = "pending")
      = false := by
  decide

/-- C5 (amended): on the live path of comprehensive-claims the status is
exactly the claimed total, mutually exclusive priority rule over
{distributed, received, pending}; the states summary instead uses
{active, pending, inactive} with the same priority structure; and
historical records get the extra status `"historical"`. -/
theorem C5_thm :
    (∀ (lk : String → Option PyFloat) (d stf se df dt : Option String) (td ts : String)
        (recs : List ClaimRaw) (out : List ClaimRecord),
      compLoop lk d stf se df dt td ts recs [] = Except.ok out →
      ∀ c ∈ out,
        c.status = recordStatus c.total_titles_distributed c.total_claims_received
        ∧ (c.status = "distributed" ∨ c.status = "received" ∨ c.status = "pending"))
  ∧ (∀ (incl : Bool) (recs : List ClaimRaw) (es : List StateSummaryEntry),
      statesLoop incl recs = Except.ok es →
      ∀ e ∈ es, e.status
        = if 0 < e.total_titles_distributed then "active"
          else if 0 < e.total_claims_received then "pending" else "inactive")
  ∧ (∀ (r : HistRaw) (n : Nat) (c : ClaimRecord),
      buildHistRecord r n = Except.ok c → c.status = "historical") := by
  refine ⟨?_, ?_, ?_⟩
  · intro lk d stf se df dt td ts recs out h c hc
    have hs := (compLoop_mem lk d stf se df dt td ts recs [] out h
      (fun c hc => absurd hc (List.not_mem_nil c)) c hc).2
    refine ⟨hs, ?_⟩
    rw [hs]
    unfold recordStatus
    split
    · exact Or.inl rfl
    · split
      · exact Or.inr (Or.inl rfl)
      · exact Or.inr (Or.inr rfl)
  · intro incl recs es h e he
    exact (statesLoop_mem incl recs es h e he).2
  · intro r n c h
    exact (buildHistRecord_fields r n c h).1

/-- C5 witness: the amended theorem applied to a one-record live
comprehensive-claims run (50 titles distributed, status `"distributed"`). -/
theorem C5_wit :
    (mkLiveRecord (approvalLookupFun []) "ts"
        ⟨Option.none, "Odisha", "", Value.str "100", Value.str "50",
          Value.none, Value.none, Value.none, Value.none, Value.none⟩
        100 50 0 0 0 0 0 0).status
      = recordStatus
          (mkLiveRecord (approvalLookupFun []) "ts"
            ⟨Option.none, "Odisha", "", Value.str "100", Value.str "50",
              Value.none, Value.none, Value.none, Value.none, Value.none⟩
            100 50 0 0 0 0 0 0).total_titles_distributed
          (mkLiveRecord (approvalLookupFun []) "ts"
            ⟨Option.none, "Odisha", "", Value.str "100", Value.str "50",
              Value.none, Value.none, Value.none, Value.none, Value.none⟩
            100 50 0 0 0 0 0 0).total_claims_received
  ∧ ((mkLiveRecord (approvalLookupFun []) "ts"
        ⟨Option.none, "Odisha", "", Value.str "100", Value.str "50",
          Value.none, Value.none, Value.none, Value.none, Value.none⟩
        100 50 0 0 0 0 0 0).status = "distributed"
      ∨ (mkLiveRecord (approvalLookupFun []) "ts"
          ⟨Option.none, "Odisha", "", Value.str "100", Value.str "50",
            Value.none, Value.none, Value.none, Value.none, Value.none⟩
          100 50 0 0 0 0 0 0).status = "received"
      ∨ (mkLiveRecord (approvalLookupFun []) "ts"
          ⟨Option.none, "Odisha", "", Value.str "100", Value.str "50",
            Value.none, Value.none, Value.none, Value.none, Value.none⟩
          100 50 0 0 0 0 0 0).status = "pending") :=
  C5_thm.1 (approvalLookupFun []) Option.none Option.none Option.none Option.none Option.none
    "2025-09-01" "ts"
    [⟨Option.none, "Odisha", "", Value.str "100", Value.str "50",
      Value.none, Value.none, Value.none, Value.none, Value.none⟩]
    [mkLiveRecord (approvalLookupFun []) "ts"
      ⟨Option.none, "Odisha", "", Value.str "100", Value.str "50",
        Value.none, Value.none, Value.none, Value.none, Value.none⟩
      100 50 0 0 0 0 0 0]
    (by decide)
    (mkLiveRecord (approvalLookupFun []) "ts"
      ⟨Option.none, "Odisha", "", Value.str "100", Value.str "50",
        Value.none, Value.none, Value.none, Value.none, Value.none⟩
      100 50 0 0 0 0 0 0)
    (by decide)

/-- Folding `approvalInsert` over records that never match `st` leaves the
map unchanged at `st`. -/
theorem approvalFold_miss (apprs : List ApprovalRaw) :
    ∀ (m : String → Option PyFloat) (st : String),
      (∀ r ∈ apprs, r.name_of_state ≠ st) →
      List.foldl approvalInsert m apprs st = m st := by
  induction apprs with
  | nil => intro m st _; rfl
  | cons r rest ih =>
    intro m st hm
    have hr : r.name_of_state ≠ st := hm r (List.mem_cons_self r rest)
    have hrest : ∀ x ∈ rest, x.name_of_state ≠ st :=
      fun x hx => hm x (List.mem_cons_of_mem r hx)
    simp only [List.foldl]
    rw [ih (approvalInsert m r) st hrest]
    unfold approvalInsert
    split
    · rfl
    · simp only [beq_iff_eq]
      rw [if_neg (fun hc => hr hc.symm)]

/-- C8 counterexample: in the comprehensive-claims join index, a duplicate
state key is resolved to the LAST matching record (each dict assignment
overwrites), not the first: with two "Odisha" approval records of 10 and
20 the lookup returns 20, not the first record's 10. -/
theorem C8_cex :
    approvalLookupFun [⟨"Odisha", Value.int 10⟩, ⟨"Odisha", Value.int 20⟩] "Odisha"
      = some (PyFloat.finite 20)
  ∧ pyFloatOfValue (Value.int 10) = some (PyFloat.finite 10)
  ∧ decide (some (PyFloat.finite 20) = some (PyFloat.finite 10)) = false := by
  decide

/-- C8 (amended): the all-India summary's linear scan with `break` does
resolve duplicate keys to the first matching record (`List.find?`
semantics), but the comprehensive-claims dict build lets the last matching
record win (appending a record with a nonempty state name overwrites that
key); in both, a lookup miss yields the default approval 0 instead of
failing. -/
theorem C8_thm :
    (∀ (apprs : List ApprovalRaw) (st : String),
      allIndiaFindApproval apprs st
        = ((apprs.find? (fun r => r.name_of_state == st)).map
            (fun r => safe_float r.pct (PyFloat.finite 0))).getD (PyFloat.finite 0))
  ∧ (∀ (apprs : List ApprovalRaw) (r : ApprovalRaw), r.name_of_state ≠ "" →
      approvalLookupFun (apprs ++ [r]) r.name_of_state
        = some ((pyFloatOfValue r.pct).getD (PyFloat.finite 0)))
  ∧ (∀ (apprs : List ApprovalRaw) (st : String),
      (∀ r ∈ apprs, r.name_of_state ≠ st) →
      pyDictGetD (approvalLookupFun apprs) st (PyFloat.finite 0) = PyFloat.finite 0) := by
  refine ⟨?_, ?_, ?_⟩
  · intro apprs st
    induction apprs with
    | nil => rfl
    | cons r rest ih =>
      simp only [allIndiaFindApproval, List.find?]
      cases h : r.name_of_state == st with
      | true => simp [h]
      | false => simp [h, ih]
  · intro apprs r h
    unfold approvalLookupFun
    rw [List.foldl_append]
    simp only [List.foldl]
    unfold approvalInsert
    simp [h]
  · intro apprs st hm
    unfold pyDictGetD approvalLookupFun
    rw [approvalFold_miss apprs (fun _ => Option.none) st hm]
    rfl

/-- C8 witness: the amended theorem's last-wins conjunct applied at a
concrete duplicate-free append. -/
theorem C8_wit :
    approvalLookupFun ([⟨"Kerala", Value.int 5⟩] ++ [⟨"Odisha", Value.int 20⟩]) "Odisha"
      = some ((pyFloatOfValue (Value.int 20)).getD (PyFloat.finite 0)) :=
  C8_thm.2.1 [⟨"Kerala", Value.int 5⟩] ⟨"Odisha", Value.int 20⟩ (by decide)

/-- C10: the all-India summary ignores records whose state is `"Total"` or
empty (line 443-445) — running the loop on the pre-filtered record list
yields the very same totals and state entries, hence the same aggregated
totals, per-state list, top-10 and `total_states_covered`; the states
summary likewise ignores records with an empty state name (lines 572-574). -/
theorem C10_thm :
    (∀ (apprs : List ApprovalRaw) (recs : List ClaimRaw),
      allIndiaLoop apprs (recs.filter (fun r => !(r.state == "Total" || r.state == "")))
        = allIndiaLoop apprs recs)
  ∧ (∀ (incl : Bool) (recs : List ClaimRaw),
      statesLoop incl (recs.filter (fun r => !(r.state == "")))
        = statesLoop incl recs) := by
  constructor
  · intro apprs recs
    induction recs with
    | nil => rfl
    | cons r rest ih =>
      cases hs : (r.state == "Total" || r.state == "") with
      | true =>
        rw [List.filter_cons_of_neg (by simp [hs])]
        rw [ih]
        conv_rhs => rw [allIndiaLoop]
        rw [if_pos hs]
      | false =>
        rw [List.filter_cons_of_pos (by simp [hs])]
        conv_lhs => rw [allIndiaLoop]
        conv_rhs => rw [allIndiaLoop]
        rw [if_neg (by simp [hs]), if_neg (by simp [hs]), ih]
  · intro incl recs
    induction recs with
    | nil => rfl
    | cons r rest ih =>
      cases hs : (r.state == "") with
      | true =>
        rw [List.filter_cons_of_neg (by simp [hs])]
        rw [ih]
        conv_rhs => rw [statesLoop]
        rw [if_pos hs]
      | false =>
        rw [List.filter_cons_of_pos (by simp [hs])]
        conv_lhs => rw [statesLoop]
        conv_rhs => rw [statesLoop]
        rw [if_neg (by simp [hs]), if_neg (by simp [hs]), ih]

/-- A placeholder response used only to extract the payload of a
successful call on concrete inputs. -/
def compDefault : CompResp :=
  { success := false
    claims := []
    total_count := 0
    pagination := ⟨0, 0, 0, false, false, 0, 0, 0⟩
    summary := ⟨0, 0, 0, 0, 0, 0⟩
    filtersState := Option.none
    filtersDistrict := Option.none
    filtersYear := Option.none
    filtersStatus := Option.none
    filtersDateRange := Option.none
    filtersSearch := Option.none
    metadata_source := "" }

/-- Extract the payload of a successful result, with a default. -/
def exceptGetD (x : Except Nat CompResp) (d : CompResp) : CompResp :=
  match x with
  | Except.ok r => r
  | Except.error _ => d

/-- When the returned page is untouched by the historical branch — a truthy
state filter, or an offset inside the filtered set — it is exactly the
slice `[offset : offset + limit]`. -/
theorem compPage2_eq_slice (hf : Except Nat (List HistRaw)) (st : Option String)
    (lim off : Nat) (processed : List ClaimRecord) (hlim : 1 ≤ lim)
    (hcase : optTruthy st = true ∨ off < processed.length) :
    compPage2 hf st lim off processed = (processed.drop off).take lim := by
  simp only [compPage2]
  rcases hcase with h | h
  · simp [h]
  · have hpos : 0 < ((processed.drop off).take lim).length := by
      rw [List.length_take, List.length_drop]
      exact lt_min hlim (by omega)
    have hem : ((processed.drop off).take lim).isEmpty = false := by
      cases hp : (processed.drop off).take lim with
      | nil => rw [hp] at hpos; simp at hpos
      | cons a as => rfl
    simp [hem]

/-- The Python idiom `(t + l - 1) // l` is the rational ceiling of `t / l`. -/
theorem natCeilDiv_cast (t l : Nat) (hl : 0 < l) :
    (((t + l - 1) / l : Nat) : ℤ) = ⌈(t : ℚ) / (l : ℚ)⌉ := by
  have hlq : (0 : ℚ) < (l : ℚ) := by exact_mod_cast hl
  have hdm := Nat.div_add_mod (t + l - 1) l
  have hmod : (t + l - 1) % l < l := Nat.mod_lt _ hl
  have h1' : 1 ≤ t + l := le_trans hl (Nat.le_add_left l t)
  have h0z : (l : ℤ) * (((t + l - 1) / l : Nat) : ℤ) + (((t + l - 1) % l : Nat) : ℤ)
      = ((t + l - 1 : Nat) : ℤ) := by exact_mod_cast hdm
  have hcast : ((t + l - 1 : Nat) : ℤ) = (t : ℤ) + l - 1 := by omega
  have h1z : (l : ℤ) * (((t + l - 1) / l : Nat) : ℤ) + (((t + l - 1) % l : Nat) : ℤ)
      = (t : ℤ) + l - 1 := by rw [h0z, hcast]
  have hmz : (((t + l - 1) % l : Nat) : ℤ) < l := by exact_mod_cast hmod
  have hm0 : (0 : ℤ) ≤ (((t + l - 1) % l : Nat) : ℤ) := Int.natCast_nonneg _
  symm
  rw [Int.ceil_eq_iff]
  constructor
  · rw [lt_div_iff₀ hlq]
    have ha : ((((t + l - 1) / l : Nat) : ℤ) - 1) * l < (t : ℤ) := by nlinarith
    exact_mod_cast ha
  · rw [div_le_iff₀ hlq]
    have hb : (t : ℤ) ≤ (((t + l - 1) / l : Nat) : ℤ) * l := by nlinarith
    exact_mod_cast hb

/-- C6 counterexample: with an empty primary dataset the filtered total is
0, so the claimed page size `min(limit, max(0, total_count - offset))` is 0;
but because the page is empty and no state filter is set, the historical
branch replaces it with the records fetched from the historical dataset,
and the operation returns 1 record. -/
theorem C6_cex :
    (getComprehensiveClaims (Except.ok []) (Except.ok [])
      (Except.ok [⟨Option.none, Option.none, Option.none, Value.str "3", Value.str "2",
        Value.none, Value.none, Value.none⟩])
      Option.none Option.none Option.none Option.none Option.none Option.none Option.none
      "2025-09-01" "ts" 10 0 Option.none "asc").map (fun r => (r.claims.length, r.total_count))
      = Except.ok (1, 0)
  ∧ decide ((1 : Int) = min 10 (max 0 ((0 : Int) - 0))) = false := by
  decide

/-- C6 (amended): whenever the historical-fallback branch does not fire —
a truthy state filter is set, or the offset lies inside the filtered set —
the comprehensive-claims operation returns exactly
`min(limit, total_count - offset)` records (with `total_count` the count
after all filtering), and the pagination's `returned` field equals the
number of records returned; when the page slice is empty and no state
filter is given, the claims list is instead replaced by records built from
the historical dataset. -/
theorem C6_thm (allF : Except Nat (List ClaimRaw)) (apf : Except Nat (List ApprovalRaw))
    (hf : Except Nat (List HistRaw)) (st d : Option String) (y : Option Int)
    (stf df dt se : Option String) (td ts : String) (lim off : Nat)
    (sb : Option String) (so : String) (r : CompResp)
    (hlim : 1 ≤ lim)
    (hr : getComprehensiveClaims allF apf hf st d y stf df dt se td ts lim off sb so
      = Except.ok r)
    (hcase : optTruthy st = true ∨ off < r.total_count) :
    r.claims.length = min lim (r.total_count - off)
  ∧ r.pagination.returned = r.claims.length := by
  cases allF with
  | error e =>
    cases apf <;> exact Except.noConfusion hr
  | ok allRecs =>
    cases apf with
    | error e => exact Except.noConfusion hr
    | ok apprRecs =>
      simp only [getComprehensiveClaims] at hr
      split at hr
      · exact Except.noConfusion hr
      · rename_i processed heq
        injection hr with hr
        subst hr
        refine ⟨?_, rfl⟩
        have hcase' : optTruthy st = true ∨ off < processed.length := hcase
        show (sortClaims sb so (compPage2 hf st lim off processed)).length
          = min lim (processed.length - off)
        rw [sortClaims_length, compPage2_eq_slice hf st lim off processed hlim hcase']
        rw [List.length_take, List.length_drop]

/-- C6 witness: the amended theorem applied to a two-record run with
`limit = 10`, `offset = 0`: both records are returned. -/
theorem C6_wit :
    (exceptGetD (getComprehensiveClaims
        (Except.ok [⟨Option.none, "Odisha", "", Value.str "100", Value.str "50",
            Value.none, Value.none, Value.none, Value.none, Value.none⟩,
          ⟨Option.none, "Kerala", "", Value.str "7", Value.str "3",
            Value.none, Value.none, Value.none, Value.none, Value.none⟩])
        (Except.ok []) (Except.error 500)
        Option.none Option.none Option.none Option.none Option.none Option.none Option.none
        "2025-09-01" "ts" 10 0 Option.none "asc") compDefault).claims.length
      = min 10 ((exceptGetD (getComprehensiveClaims
        (Except.ok [⟨Option.none, "Odisha", "", Value.str "100", Value.str "50",
            Value.none, Value.none, Value.none, Value.none, Value.none⟩,
          ⟨Option.none, "Kerala", "", Value.str "7", Value.str "3",
            Value.none, Value.none, Value.none, Value.none, Value.none⟩])
        (Except.ok []) (Except.error 500)
        Option.none Option.none Option.none Option.none Option.none Option.none Option.none
        "2025-09-01" "ts" 10 0 Option.none "asc") compDefault).total_count - 0)
  ∧ (exceptGetD (getComprehensiveClaims
        (Except.ok [⟨Option.none, "Odisha", "", Value.str "100", Value.str "50",
            Value.none, Value.none, Value.none, Value.none, Value.none⟩,
          ⟨Option.none, "Kerala", "", Value.str "7", Value.str "3",
            Value.none, Value.none, Value.none, Value.none, Value.none⟩])
        (Except.ok []) (Except.error 500)
        Option.none Option.none Option.none Option.none Option.none Option.none Option.none
        "2025-09-01" "ts" 10 0 Option.none "asc") compDefault).pagination.returned
      = (exceptGetD (getComprehensiveClaims
        (Except.ok [⟨Option.none, "Odisha", "", Value.str "100", Value.str "50",
            Value.none, Value.none, Value.none, Value.none, Value.none⟩,
          ⟨Option.none, "Kerala", "", Value.str "7", Value.str "3",
            Value.none, Value.none, Value.none, Value.none, Value.none⟩])
        (Except.ok []) (Except.error 500)
        Option.none Option.none Option.none Option.none Option.none Option.none Option.none
        "2025-09-01" "ts" 10 0 Option.none "asc") compDefault).claims.length :=
  C6_thm
    (Except.ok [⟨Option.none, "Odisha", "", Value.str "100", Value.str "50",
        Value.none, Value.none, Value.none, Value.none, Value.none⟩,
      ⟨Option.none, "Kerala", "", Value.str "7", Value.str "3",
        Value.none, Value.none, Value.none, Value.none, Value.none⟩])
    (Except.ok []) (Except.error 500)
    Option.none Option.none Option.none Option.none Option.none Option.none Option.none
    "2025-09-01" "ts" 10 0 Option.none "asc"
    (exceptGetD (getComprehensiveClaims
      (Except.ok [⟨Option.none, "Odisha", "", Value.str "100", Value.str "50",
          Value.none, Value.none, Value.none, Value.none, Value.none⟩,
        ⟨Option.none, "Kerala", "", Value.str "7", Value.str "3",
          Value.none, Value.none, Value.none, Value.none, Value.none⟩])
      (Except.ok []) (Except.error 500)
      Option.none Option.none Option.none Option.none Option.none Option.none Option.none
      "2025-09-01" "ts" 10 0 Option.none "asc") compDefault)
    (by decide) rfl (Or.inr (by decide))

/-- C7 counterexample: with an empty filtered set (`total_count = 0`) the
code computes `total_pages = max((0 + limit - 1) // limit, 1) = 1`, while
the claim's `ceil(total_count / limit) = ceil(0 / 10) = 0`. -/
theorem C7_cex :
    (getComprehensiveClaims (Except.ok []) (Except.ok []) (Except.error 500)
      Option.none Option.none Option.none Option.none Option.none Option.none Option.none
      "2025-09-01" "ts" 10 0 Option.none "asc").map
        (fun r => (r.pagination.total_pages, r.total_count)) = Except.ok (1, 0)
  ∧ ⌈((0 : Nat) : ℚ) / ((10 : Nat) : ℚ)⌉ = 0
  ∧ decide ((1 : ℤ) = 0) = false := by
  refine ⟨by decide, ?_, by decide⟩
  norm_num

/-- C7 (amended): for every request with `limit ≥ 1` the pagination
descriptor of a successful comprehensive-claims response satisfies
`total_pages = max(ceil(total_count / limit), 1)` — equal to the claimed
`ceil(total_count / limit)` except at `total_count = 0`, where the code
clamps to 1 — together with `has_next = (offset + limit < total_count)`
and `has_previous = (offset > 0)` exactly as claimed. -/
theorem C7_thm (allF : Except Nat (List ClaimRaw)) (apf : Except Nat (List ApprovalRaw))
    (hf : Except Nat (List HistRaw)) (st d : Option String) (y : Option Int)
    (stf df dt se : Option String) (td ts : String) (lim off : Nat)
    (sb : Option String) (so : String) (r : CompResp)
    (hlim : 1 ≤ lim)
    (hr : getComprehensiveClaims allF apf hf st d y stf df dt se td ts lim off sb so
      = Except.ok r) :
    (r.pagination.total_pages : ℤ) = max ⌈(r.total_count : ℚ) / (lim : ℚ)⌉ 1
  ∧ r.pagination.has_next = decide (off + lim < r.total_count)
  ∧ r.pagination.has_previous = decide (0 < off)
  ∧ r.pagination.total_count = r.total_count
  ∧ r.pagination.offset = off
  ∧ r.pagination.limit = lim := by
  cases allF with
  | error e =>
    cases apf <;> exact Except.noConfusion hr
  | ok allRecs =>
    cases apf with
    | error e => exact Except.noConfusion hr
    | ok apprRecs =>
      simp only [getComprehensiveClaims] at hr
      split at hr
      · exact Except.noConfusion hr
      · rename_i processed heq
        injection hr with hr
        subst hr
        refine ⟨?_, rfl, rfl, rfl, rfl, rfl⟩
        show ((max ((processed.length + lim - 1) / lim) 1 : ℕ) : ℤ)
          = max ⌈((processed.length : ℕ) : ℚ) / (lim : ℚ)⌉ 1
        rw [Nat.cast_max, natCeilDiv_cast processed.length lim hlim]
        norm_num

/-- C7 witness: the amended theorem applied to a one-record run with
`limit = 10` (`total_pages = 1 = max(ceil(1/10), 1)`). -/
theorem C7_wit :
    ((exceptGetD (getComprehensiveClaims
        (Except.ok [⟨Option.none, "Odisha", "", Value.str "100", Value.str "50",
            Value.none, Value.none, Value.none, Value.none, Value.none⟩])
        (Except.ok []) (Except.error 500)
        Option.none Option.none Option.none Option.none Option.none Option.none Option.none
        "2025-09-01" "ts" 10 0 Option.none "asc") compDefault).pagination.total_pages : ℤ)
      = max ⌈((exceptGetD (getComprehensiveClaims
        (Except.ok [⟨Option.none, "Odisha", "", Value.str "100", Value.str "50",
            Value.none, Value.none, Value.none, Value.none, Value.none⟩])
        (Except.ok []) (Except.error 500)
        Option.none Option.none Option.none Option.none Option.none Option.none Option.none
        "2025-09-01" "ts" 10 0 Option.none "asc") compDefault).total_count : ℚ)
          / ((10 : Nat) : ℚ)⌉ 1 :=
  (C7_thm
    (Except.ok [⟨Option.none, "Odisha", "", Value.str "100", Value.str "50",
        Value.none, Value.none, Value.none, Value.none, Value.none⟩])
    (Except.ok []) (Except.error 500)
    Option.none Option.none Option.none Option.none Option.none Option.none Option.none
    "2025-09-01" "ts" 10 0 Option.none "asc"
    (exceptGetD (getComprehensiveClaims
      (Except.ok [⟨Option.none, "Odisha", "", Value.str "100", Value.str "50",
          Value.none, Value.none, Value.none, Value.none, Value.none⟩])
      (Except.ok []) (Except.error 500)
      Option.none Option.none Option.none Option.none Option.none Option.none Option.none
      "2025-09-01" "ts" 10 0 Option.none "asc") compDefault)
    (by decide) rfl).1

/-- C9: the summary aggregates of a successful comprehensive-claims
response — total claims, total titles, individual/community claims, overall
processing efficiency and distinct-state count — are computed over exactly
the page of records actually returned (`r.claims`), not over the full
filtered set. -/
theorem C9_thm (allF : Except Nat (List ClaimRaw)) (apf : Except Nat (List ApprovalRaw))
    (hf : Except Nat (List HistRaw)) (st d : Option String) (y : Option Int)
    (stf df dt se : Option String) (td ts : String) (lim off : Nat)
    (sb : Option String) (so : String) (r : CompResp)
    (hr : getComprehensiveClaims allF apf hf st d y stf df dt se td ts lim off sb so
      = Except.ok r) :
    r.summary.total_claims_received = (r.claims.map (fun c => c.total_claims_received)).sum
  ∧ r.summary.total_titles_distributed
      = (r.claims.map (fun c => c.total_titles_distributed)).sum
  ∧ r.summary.total_individual_claims
      = (r.claims.map (fun c => c.individual_claims_received)).sum
  ∧ r.summary.total_community_claims
      = (r.claims.map (fun c => c.community_claims_received)).sum
  ∧ r.summary.overall_processing_efficiency
      = pyRound2 ((((r.claims.map (fun c => c.total_titles_distributed)).sum : ℤ) : ℚ)
          / ((max (r.claims.map (fun c => c.total_claims_received)).sum 1 : ℤ) : ℚ) * 100)
  ∧ r.summary.states_covered = ((r.claims.map (fun c => c.state)).dedup).length := by
  cases allF with
  | error e =>
    cases apf <;> exact Except.noConfusion hr
  | ok allRecs =>
    cases apf with
    | error e => exact Except.noConfusion hr
    | ok apprRecs =>
      simp only [getComprehensiveClaims] at hr
      split at hr
      · exact Except.noConfusion hr
      · rename_i processed heq
        injection hr with hr
        subst hr
        have hperm := sortClaims_perm sb so (compPage2 hf st lim off processed)
        refine ⟨?_, ?_, ?_, ?_, ?_, rfl⟩
        · show ((compPage2 hf st lim off processed).map
              (fun c => c.total_claims_received)).sum
            = ((sortClaims sb so (compPage2 hf st lim off processed)).map
              (fun c => c.total_claims_received)).sum
          exact ((hperm.map (fun c => c.total_claims_received)).sum_eq).symm
        · show ((compPage2 hf st lim off processed).map
              (fun c => c.total_titles_distributed)).sum
            = ((sortClaims sb so (compPage2 hf st lim off processed)).map
              (fun c => c.total_titles_distributed)).sum
          exact ((hperm.map (fun c => c.total_titles_distributed)).sum_eq).symm
        · show ((compPage2 hf st lim off processed).map
              (fun c => c.individual_claims_received)).sum
            = ((sortClaims sb so (compPage2 hf st lim off processed)).map
              (fun c => c.individual_claims_received)).sum
          exact ((hperm.map (fun c => c.individual_claims_received)).sum_eq).symm
        · show ((compPage2 hf st lim off processed).map
              (fun c => c.community_claims_received)).sum
            = ((sortClaims sb so (compPage2 hf st lim off processed)).map
              (fun c => c.community_claims_received)).sum
          exact ((hperm.map (fun c => c.community_claims_received)).sum_eq).symm
        show pyRound2
            (((((compPage2 hf st lim off processed).map
                (fun c => c.total_titles_distributed)).sum : ℤ) : ℚ)
              / ((max (((compPage2 hf st lim off processed).map
                  (fun c => c.total_claims_received)).sum : ℤ) 1 : ℤ) : ℚ) * 100)
          = pyRound2
            ((((((sortClaims sb so (compPage2 hf st lim off processed))).map
                (fun c => c.total_titles_distributed)).sum : ℤ) : ℚ)
              / ((max ((((sortClaims sb so (compPage2 hf st lim off processed))).map
                  (fun c => c.total_claims_received)).sum : ℤ) 1 : ℤ) : ℚ) * 100)
        rw [(hperm.map (fun c => c.total_titles_distributed)).sum_eq,
          (hperm.map (fun c => c.total_claims_received)).sum_eq]

/-- C9 witness: the theorem applied to a one-record run — the summary's
total claims equal the sum over the returned page. -/
theorem C9_wit :
    (exceptGetD (getComprehensiveClaims
        (Except.ok [⟨Option.none, "Odisha", "", Value.str "100", Value.str "50",
            Value.none, Value.none, Value.none, Value.none, Value.none⟩])
        (Except.ok []) (Except.error 500)
        Option.none Option.none Option.none Option.none Option.none Option.none Option.none
        "2025-09-01" "ts" 10 0 Option.none "asc") compDefault).summary.total_claims_received
      = ((exceptGetD (getComprehensiveClaims
        (Except.ok [⟨Option.none, "Odisha", "", Value.str "100", Value.str "50",
            Value.none, Value.none, Value.none, Value.none, Value.none⟩])
        (Except.ok []) (Except.error 500)
        Option.none Option.none Option.none Option.none Option.none Option.none Option.none
        "2025-09-01" "ts" 10 0 Option.none "asc") compDefault).claims.map
          (fun c => c.total_claims_received)).sum :=
  (C9_thm
    (Except.ok [⟨Option.none, "Odisha", "", Value.str "100", Value.str "50",
        Value.none, Value.none, Value.none, Value.none, Value.none⟩])
    (Except.ok []) (Except.error 500)
    Option.none Option.none Option.none Option.none Option.none Option.none Option.none
    "2025-09-01" "ts" 10 0 Option.none "asc"
    (exceptGetD (getComprehensiveClaims
      (Except.ok [⟨Option.none, "Odisha", "", Value.str "100", Value.str "50",
          Value.none, Value.none, Value.none, Value.none, Value.none⟩])
      (Except.ok []) (Except.error 500)
      Option.none Option.none Option.none Option.none Option.none Option.none Option.none
      "2025-09-01" "ts" 10 0 Option.none "asc") compDefault)
    rfl).1
